import Mathlib

/-!
Shallow embedding of `src/windows/flutter_mcp_server_plugin_c_api.cpp`
from the repository app-appplayer/flutter_mcp_server.

The file under verification is a 12-line C registration shim:

  void FlutterMcpServerPluginCApiRegisterWithRegistrar(
      FlutterDesktopPluginRegistrarRef registrar) {
    flutter_mcp_server::FlutterMcpServerPlugin::RegisterWithRegistrar(
        flutter::PluginRegistrarManager::GetInstance()
            ->GetRegistrar<flutter::PluginRegistrarWindows>(registrar));
  }

The shim's observable behaviour is modelled as an explicit event trace
over an abstract process state.  The collaborators
(`flutter::PluginRegistrarManager`, `flutter::PluginRegistrarWindows`,
`flutter_mcp_server::FlutterMcpServerPlugin`) live in the Flutter
Windows SDK and in plugin code not present in this fragment; each is
modelled from the specification's description of its contract.
-/

/-- Opaque platform-specific registrar reference
(`FlutterDesktopPluginRegistrarRef`): a raw handle owned by the host
engine.  `addr = 0` models the null reference. -/
structure FlutterDesktopPluginRegistrarRef where
  addr : Nat
deriving DecidableEq, Repr

/-- The null opaque registrar reference. -/
def nullRegistrarRef : FlutterDesktopPluginRegistrarRef := ⟨0⟩

/-- A valid opaque registrar reference is a non-null one. -/
def FlutterDesktopPluginRegistrarRef.Valid
    (r : FlutterDesktopPluginRegistrarRef) : Prop :=
  r.addr ≠ 0

instance (r : FlutterDesktopPluginRegistrarRef) : Decidable r.Valid := by
  unfold FlutterDesktopPluginRegistrarRef.Valid
  infer_instance

namespace flutter

/-- Modelled from the spec: a typed Windows registrar object
(`flutter::PluginRegistrarWindows`), the result of resolving an opaque
reference through the registrar manager. -/
structure PluginRegistrarWindows where
  id : Nat
deriving DecidableEq, Repr

/-- Modelled from the spec: the process-wide registrar-manager singleton
(`flutter::PluginRegistrarManager`).  The spec describes it as "a
registrar-manager singleton exposing a lookup operation that maps an
opaque reference to a typed registrar object"; the lookup is modelled as
a function held in the manager's state. -/
structure PluginRegistrarManager where
  instanceId : Nat
  registrarOf : FlutterDesktopPluginRegistrarRef → PluginRegistrarWindows

end flutter

/-- Process-wide state visible to the shim: it holds the single
registrar-manager instance whose lifecycle the spec ties to the
process/plugin-load duration. -/
structure ProcessState where
  manager : flutter.PluginRegistrarManager

namespace flutter

/-- Modelled from the spec: `PluginRegistrarManager::GetInstance` looks
up the singleton registrar-manager instance of the process-wide state.
It reads the state and returns the one manager the state holds. -/
def PluginRegistrarManager.GetInstance (s : ProcessState) :
    PluginRegistrarManager :=
  s.manager

/-- Modelled from the spec: `GetRegistrar<PluginRegistrarWindows>`
requests from the manager the typed registrar object corresponding to
the opaque reference. -/
def PluginRegistrarManager.GetRegistrar (m : PluginRegistrarManager)
    (ref : FlutterDesktopPluginRegistrarRef) : PluginRegistrarWindows :=
  m.registrarOf ref

end flutter

/-- Observable events of a shim call.  The vocabulary covers the actions
the shim could in principle perform, so that the absence of an action is
expressible: manager lookup, typed-registrar lookup, plugin
registration, heap allocation, handle creation/mutation/destruction,
and error reporting. -/
inductive Event where
  | getInstance (managerId : Nat)
  | getRegistrar (managerId : Nat) (ref : FlutterDesktopPluginRegistrarRef)
      (result : flutter.PluginRegistrarWindows)
  | registerWithRegistrar (arg : flutter.PluginRegistrarWindows)
  | alloc (objId : Nat)
  | createHandle (ref : FlutterDesktopPluginRegistrarRef)
  | writeHandle (ref : FlutterDesktopPluginRegistrarRef) (val : Nat)
  | destroyHandle (ref : FlutterDesktopPluginRegistrarRef)
  | raiseError (code : Nat)
deriving DecidableEq, Repr

namespace flutter_mcp_server

/-- Modelled from the spec: the plugin's static registration method
`FlutterMcpServerPlugin::RegisterWithRegistrar`.  Its body is outside
this fragment; observably, invoking it is one registration event
carrying the typed registrar it received. -/
def FlutterMcpServerPlugin.RegisterWithRegistrar
    (registrar : flutter.PluginRegistrarWindows) : List Event :=
  [Event.registerWithRegistrar registrar]

end flutter_mcp_server

/-- Result of one call of the shim: the (void) return value, the process
state after the call, and the trace of observable events. -/
structure ShimResult where
  ret : Unit
  state : ProcessState
  trace : List Event

/-- Shallow embedding of the entry point
`FlutterMcpServerPluginCApiRegisterWithRegistrar`
(src/windows/flutter_mcp_server_plugin_c_api.cpp, lines 7 to 12).
The body mirrors the source expression: obtain the singleton manager
instance, request the typed registrar for the opaque reference, and
invoke the plugin's static registration method on the result.  The shim
itself holds no state and makes no state change. -/
def FlutterMcpServerPluginCApiRegisterWithRegistrar (s : ProcessState)
    (registrar : FlutterDesktopPluginRegistrarRef) : ShimResult :=
  let mgr := flutter.PluginRegistrarManager.GetInstance s
  let typed := flutter.PluginRegistrarManager.GetRegistrar mgr registrar
  { ret := ()
    state := s
    trace :=
      [Event.getInstance mgr.instanceId,
       Event.getRegistrar mgr.instanceId registrar typed] ++
      flutter_mcp_server.FlutterMcpServerPlugin.RegisterWithRegistrar typed }

/-- Whether an event is an invocation of the plugin's static
registration method. -/
def Event.isRegistration : Event → Bool
  | Event.registerWithRegistrar _ => true
  | _ => false

/-- Whether an event is a heap allocation. -/
def Event.isAlloc : Event → Bool
  | Event.alloc _ => true
  | _ => false

/-- Whether an event creates, mutates or destroys a registrar handle. -/
def Event.touchesHandle : Event → Bool
  | Event.createHandle _ => true
  | Event.writeHandle _ _ => true
  | Event.destroyHandle _ => true
  | _ => false

/-- Whether an event reports an error. -/
def Event.isError : Event → Bool
  | Event.raiseError _ => true
  | _ => false

/-- Number of plugin-registration invocations in a trace. -/
def registrationCount (tr : List Event) : Nat :=
  (tr.filter Event.isRegistration).length

/-- Number of heap allocations in a trace. -/
def allocCount (tr : List Event) : Nat :=
  (tr.filter Event.isAlloc).length

/-- Number of handle-creating, handle-mutating or handle-destroying
events in a trace. -/
def handleTouchCount (tr : List Event) : Nat :=
  (tr.filter Event.touchesHandle).length

/-- Number of error-reporting events in a trace. -/
def errorCount (tr : List Event) : Nat :=
  (tr.filter Event.isError).length

/-- The arguments of the plugin-registration invocations of a trace, in
order. -/
def registrationArgs : List Event → List flutter.PluginRegistrarWindows
  | [] => []
  | Event.registerWithRegistrar a :: rest => a :: registrationArgs rest
  | _ :: rest => registrationArgs rest

/-- The opaque references forwarded to the registrar-manager lookup in a
trace, in order. -/
def forwardedRefs : List Event → List FlutterDesktopPluginRegistrarRef
  | [] => []
  | Event.getRegistrar _ r _ :: rest => r :: forwardedRefs rest
  | _ :: rest => forwardedRefs rest

/-- Program points of the shim's body, in source order: before the
manager lookup, after it, after the typed-registrar lookup, and after
the registration call returns. -/
inductive PC where
  | start
  | haveManager
  | haveTyped
  | done
deriving DecidableEq, Repr

/-- A configuration of the small-step execution of one shim call. -/
structure Config where
  pc : PC
  procState : ProcessState
  registrar : FlutterDesktopPluginRegistrarRef
  typed : Option flutter.PluginRegistrarWindows
  trace : List Event

/-- Initial configuration of a shim call on state `s` with argument
`r`. -/
def initConfig (s : ProcessState) (r : FlutterDesktopPluginRegistrarRef) :
    Config :=
  { pc := PC.start, procState := s, registrar := r, typed := none,
    trace := [] }

/-- One step of the shim's body.  Each program point performs the one
action the corresponding source expression performs; the terminal point
is absorbing.  There is no loop, no recursion and no wait: every
non-terminal step advances the program point. -/
def step (c : Config) : Config :=
  match c.pc with
  | PC.start =>
      let mgr := flutter.PluginRegistrarManager.GetInstance c.procState
      { c with pc := PC.haveManager,
               trace := c.trace ++ [Event.getInstance mgr.instanceId] }
  | PC.haveManager =>
      let mgr := flutter.PluginRegistrarManager.GetInstance c.procState
      let t := flutter.PluginRegistrarManager.GetRegistrar mgr c.registrar
      { c with pc := PC.haveTyped, typed := some t,
               trace := c.trace ++
                 [Event.getRegistrar mgr.instanceId c.registrar t] }
  | PC.haveTyped =>
      match c.typed with
      | some t =>
          { c with pc := PC.done,
                   trace := c.trace ++
                     flutter_mcp_server.FlutterMcpServerPlugin.RegisterWithRegistrar t }
      | none => { c with pc := PC.done }
  | PC.done => c

/-- `n` steps of the shim's body. -/
def stepN : Nat → Config → Config
  | 0, c => c
  | n + 1, c => stepN n (step c)

/-- `n` successive calls of the entry point, threading the process state
from each call into the next and concatenating the traces. -/
def callN (s : ProcessState) (r : FlutterDesktopPluginRegistrarRef) :
    Nat → ProcessState × List Event
  | 0 => (s, [])
  | n + 1 =>
      let out := FlutterMcpServerPluginCApiRegisterWithRegistrar s r
      let rest := callN out.state r n
      (rest.1, out.trace ++ rest.2)

/-- The C-level types appearing in the file's exported signature. -/
inductive CType where
  | void
  | registrarRef
deriving DecidableEq, Repr

/-- Signature of an exported C-callable function. -/
structure ExportedFunction where
  name : String
  params : List CType
  ret : CType
deriving DecidableEq, Repr

/-- The exported C-callable functions defined by
src/windows/flutter_mcp_server_plugin_c_api.cpp: the file defines
exactly the one entry point of lines 7 to 12, taking one
`FlutterDesktopPluginRegistrarRef` and returning `void`. -/
def fileExports : List ExportedFunction :=
  [{ name := "FlutterMcpServerPluginCApiRegisterWithRegistrar",
     params := [CType.registrarRef],
     ret := CType.void }]

/-- A concrete registrar manager used to witness hypothesised theorems:
its lookup maps the reference at address `a` to the typed registrar
numbered `a + 100`. -/
def sampleManager : flutter.PluginRegistrarManager :=
  { instanceId := 7, registrarOf := fun r => ⟨r.addr + 100⟩ }

/-- A concrete process state holding `sampleManager`. -/
def sampleState : ProcessState := ⟨sampleManager⟩

theorem registrationCount_append (a b : List Event) :
    registrationCount (a ++ b) = registrationCount a + registrationCount b := by
  unfold registrationCount
  rw [List.filter_append, List.length_append]

theorem step_of_done (c : Config) (h : c.pc = PC.done) : step c = c := by
  unfold step
  rw [h]

theorem stepN_of_done (n : Nat) (c : Config) (h : c.pc = PC.done) :
    stepN n c = c := by
  induction n with
  | zero => rfl
  | succ k ih =>
      show stepN k (step c) = c
      rw [step_of_done c h, ih]

theorem stepN_add (a b : Nat) (c : Config) :
    stepN (a + b) c = stepN a (stepN b c) := by
  induction b generalizing c with
  | zero => rfl
  | succ k ih =>
      show stepN (a + k + 1) c = stepN a (stepN (k + 1) c)
      show stepN (a + k) (step c) = stepN a (stepN k (step c))
      exact ih (step c)

/-- Claim C1: calling the entry point with a valid registrar reference
invokes the plugin's static registration method exactly once, and the
argument of that invocation is the typed registrar derived from the same
opaque reference via the singleton manager. -/
theorem c1_single_registration_with_derived_registrar
    (s : ProcessState) (r : FlutterDesktopPluginRegistrarRef)
    (h : r.Valid) :
    registrationCount
        (FlutterMcpServerPluginCApiRegisterWithRegistrar s r).trace = 1 ∧
    registrationArgs
        (FlutterMcpServerPluginCApiRegisterWithRegistrar s r).trace =
      [flutter.PluginRegistrarManager.GetRegistrar
         (flutter.PluginRegistrarManager.GetInstance s) r] :=
  ⟨rfl, rfl⟩

/-- Witness for C1 at the concrete state `sampleState` and the concrete
valid reference at address 1. -/
theorem c1_witness :
    FlutterDesktopPluginRegistrarRef.Valid ⟨1⟩ ∧
    (registrationCount
        (FlutterMcpServerPluginCApiRegisterWithRegistrar sampleState ⟨1⟩).trace
        = 1 ∧
     registrationArgs
        (FlutterMcpServerPluginCApiRegisterWithRegistrar sampleState ⟨1⟩).trace
        =
      [flutter.PluginRegistrarManager.GetRegistrar
         (flutter.PluginRegistrarManager.GetInstance sampleState) ⟨1⟩]) :=
  ⟨by decide,
   c1_single_registration_with_derived_registrar sampleState ⟨1⟩ (by decide)⟩

/-- Claim C2: every call of the entry point performs exactly these steps
in this order: obtain the singleton manager instance, request from it
the typed registrar for the opaque reference, and invoke the plugin's
static registration method with that typed object. -/
theorem c2_operation_steps_in_order
    (s : ProcessState) (r : FlutterDesktopPluginRegistrarRef) :
    (FlutterMcpServerPluginCApiRegisterWithRegistrar s r).trace =
      [Event.getInstance
         (flutter.PluginRegistrarManager.GetInstance s).instanceId,
       Event.getRegistrar
         (flutter.PluginRegistrarManager.GetInstance s).instanceId r
         (flutter.PluginRegistrarManager.GetRegistrar
            (flutter.PluginRegistrarManager.GetInstance s) r),
       Event.registerWithRegistrar
         (flutter.PluginRegistrarManager.GetRegistrar
            (flutter.PluginRegistrarManager.GetInstance s) r)] :=
  rfl

/-- Claim C3: the entry point performs no observable action besides the
single registration: it returns no value (void), performs exactly one
registration, allocates nothing of its own, and leaves the process state
unchanged. -/
theorem c3_no_other_observable_action
    (s : ProcessState) (r : FlutterDesktopPluginRegistrarRef) :
    (FlutterMcpServerPluginCApiRegisterWithRegistrar s r).ret = () ∧
    registrationCount
        (FlutterMcpServerPluginCApiRegisterWithRegistrar s r).trace = 1 ∧
    allocCount (FlutterMcpServerPluginCApiRegisterWithRegistrar s r).trace
        = 0 ∧
    (FlutterMcpServerPluginCApiRegisterWithRegistrar s r).state = s :=
  ⟨rfl, rfl, rfl, rfl⟩

/-- Claim C4: the file exposes exactly one ABI entry point, a single
exported C-callable function taking one opaque registrar reference and
returning void. -/
theorem c4_single_abi_entry_point :
    fileExports.length = 1 ∧
    fileExports.map ExportedFunction.name =
      ["FlutterMcpServerPluginCApiRegisterWithRegistrar"] ∧
    fileExports.map ExportedFunction.params = [[CType.registrarRef]] ∧
    fileExports.map ExportedFunction.ret = [CType.void] := by
  refine ⟨rfl, rfl, rfl, rfl⟩

/-- Claim C5: the shim neither creates, mutates nor destroys the
registrar handle: the opaque reference is forwarded unchanged to the
registrar-manager lookup (and to nothing else), no handle-touching event
occurs, and the process state is unchanged. -/
theorem c5_handle_passed_through_untouched
    (s : ProcessState) (r : FlutterDesktopPluginRegistrarRef) :
    forwardedRefs (FlutterMcpServerPluginCApiRegisterWithRegistrar s r).trace
        = [r] ∧
    handleTouchCount
        (FlutterMcpServerPluginCApiRegisterWithRegistrar s r).trace = 0 ∧
    (FlutterMcpServerPluginCApiRegisterWithRegistrar s r).state = s :=
  ⟨rfl, rfl, rfl⟩

/-- Claim C6: the entry point surfaces no error conditions: for every
input it returns normally with the void value and its trace contains no
error-reporting event. -/
theorem c6_no_error_surfaced
    (s : ProcessState) (r : FlutterDesktopPluginRegistrarRef) :
    (FlutterMcpServerPluginCApiRegisterWithRegistrar s r).ret = () ∧
    errorCount (FlutterMcpServerPluginCApiRegisterWithRegistrar s r).trace
        = 0 :=
  ⟨rfl, rfl⟩

/-- Claim C7: every call of the entry point terminates: the small-step
execution of the body reaches the terminal program point after exactly
three steps, stays there forever after (no loop, no recursion, no wait),
and the trace it produced agrees with the denotational embedding. -/
theorem c7_every_call_terminates
    (s : ProcessState) (r : FlutterDesktopPluginRegistrarRef) :
    (stepN 3 (initConfig s r)).pc = PC.done ∧
    (stepN 3 (initConfig s r)).trace =
      (FlutterMcpServerPluginCApiRegisterWithRegistrar s r).trace ∧
    ∀ n : Nat, (stepN (n + 3) (initConfig s r)).pc = PC.done := by
  have h3 : (stepN 3 (initConfig s r)).pc = PC.done := rfl
  refine ⟨h3, rfl, ?_⟩
  intro n
  rw [stepN_add n 3 (initConfig s r),
      stepN_of_done n (stepN 3 (initConfig s r)) h3, h3]

/-- Claim C8: registrar resolution is deterministic through the
process-wide singleton: a call leaves the manager returned by
GetInstance unchanged, so a second call with the same opaque reference
passes the same typed registrar to the plugin's registration method as
the first. -/
theorem c8_singleton_deterministic_resolution
    (s : ProcessState) (r : FlutterDesktopPluginRegistrarRef) :
    flutter.PluginRegistrarManager.GetInstance
        (FlutterMcpServerPluginCApiRegisterWithRegistrar s r).state =
      flutter.PluginRegistrarManager.GetInstance s ∧
    registrationArgs
        (FlutterMcpServerPluginCApiRegisterWithRegistrar
           (FlutterMcpServerPluginCApiRegisterWithRegistrar s r).state
           r).trace =
      registrationArgs
        (FlutterMcpServerPluginCApiRegisterWithRegistrar s r).trace :=
  ⟨rfl, rfl⟩

/-- Claim C9: the entry point performs no null-check: called with the
null registrar reference it forwards the null reference unchanged to the
registrar-manager lookup, reports no error, and still performs the
registration. -/
theorem c9_null_forwarded_unchecked (s : ProcessState) :
    forwardedRefs
        (FlutterMcpServerPluginCApiRegisterWithRegistrar s
           nullRegistrarRef).trace = [nullRegistrarRef] ∧
    errorCount
        (FlutterMcpServerPluginCApiRegisterWithRegistrar s
           nullRegistrarRef).trace = 0 ∧
    registrationCount
        (FlutterMcpServerPluginCApiRegisterWithRegistrar s
           nullRegistrarRef).trace = 1 :=
  ⟨rfl, rfl, rfl⟩

/-- Claim C10: the entry point does not deduplicate registrations: it
keeps no shim-local state (the process state threads through every call
unchanged), and N successive calls with the same opaque reference
perform exactly N invocations of the plugin's static registration
method. -/
theorem c10_n_calls_n_registrations
    (s : ProcessState) (r : FlutterDesktopPluginRegistrarRef) (n : Nat) :
    registrationCount (callN s r n).2 = n ∧ (callN s r n).1 = s := by
  induction n with
  | zero => exact ⟨rfl, rfl⟩
  | succ k ih =>
      have h1 : (callN s r (k + 1)).2 =
          (FlutterMcpServerPluginCApiRegisterWithRegistrar s r).trace ++
            (callN s r k).2 := rfl
      have h2 : (callN s r (k + 1)).1 = (callN s r k).1 := rfl
      have h0 : registrationCount
          (FlutterMcpServerPluginCApiRegisterWithRegistrar s r).trace = 1 :=
        rfl
      constructor
      · rw [h1, registrationCount_append, ih.1, h0]
        omega
      · rw [h2]
        exact ih.2
